import Mathlib

/-!
Verification development for the open-agent-sdk-rust repository.

The repository ships src/lib.rs (module documentation and re-exports) and
src/error.rs (the public Error enum) together with its integration tests.
The remaining modules (types, client, hooks, retry, utils) are declared in
lib.rs but their sources are absent; the definitions below that embed them
are modelled from the specification text and from the behaviour the
integration tests pin down, and each such definition says so in its doc
comment.  Everything taken from src/error.rs and the test files is a direct
shallow embedding of that source.
-/

/-- Minimal JSON value type used to model serde_json values.  The repository
uses serde_json for tool-call argument parsing and message serialization;
only the structure of values matters for the claims, not the textual
grammar. -/
inductive Json where
  | str (s : String)
  | num (n : Int)
  | jbool (b : Bool)
  | null
  | arr (xs : List Json)
  | obj (fields : List (String × Json))

/-- Association-list field lookup used by the object accessor. -/
def lookupField : List (String × Json) → String → Option Json
  | [], _ => none
  | (k, v) :: rest, key => if k = key then some v else lookupField rest key

/-- Field access on a JSON object; none on non-objects. -/
def Json.getField : Json → String → Option Json
  | .obj fields, key => lookupField fields key
  | _, _ => none

/-- True exactly on JSON arrays. -/
def Json.isArr : Json → Bool
  | .arr _ => true
  | _ => false

/-- Shallow embedding of the public Error enum from src/src/error.rs
(lines 83-229).  The Rust variants Http and Json wrap foreign error values
(reqwest::Error, serde_json::Error); they are embedded carrying the error
message string.  The source enum has exactly these nine variants: Http,
Json, Config, Api, Stream, Tool, InvalidInput, Timeout, Other. -/
inductive Error where
  | http (msg : String)
  | json (msg : String)
  | config (msg : String)
  | api (msg : String)
  | stream (msg : String)
  | tool (msg : String)
  | invalidInput (msg : String)
  | timeout
  | other (msg : String)
deriving DecidableEq

/-- The variant name of an Error value, mirroring the Rust enum constructor
names from src/src/error.rs. -/
def Error.kind : Error → String
  | .http _ => "Http"
  | .json _ => "Json"
  | .config _ => "Config"
  | .api _ => "Api"
  | .stream _ => "Stream"
  | .tool _ => "Tool"
  | .invalidInput _ => "InvalidInput"
  | .timeout => "Timeout"
  | .other _ => "Other"

/-- The complete list of variant names of the Error enum in
src/src/error.rs, in source order. -/
def errorKinds : List String :=
  ["Http", "Json", "Config", "Api", "Stream", "Tool", "InvalidInput", "Timeout", "Other"]

/-- Every Error value has a kind drawn from the source enum variant list. -/
theorem Error.kind_mem_errorKinds (e : Error) : e.kind ∈ errorKinds := by
  cases e <;> simp [Error.kind, errorKinds]

/-- Image detail level, from the ImageDetail type exercised by the tests
(tests/image_serialization_test.rs): serialized as the lowercase strings
low, high, auto. -/
inductive ImageDetail where
  | low
  | high
  | auto
deriving DecidableEq

/-- The lowercase wire string of a detail level, as asserted by
test_image_detail_serialization. -/
def ImageDetail.str : ImageDetail → String
  | .low => "low"
  | .high => "high"
  | .auto => "auto"

/-- Modelled from the spec: types.rs is absent from src.  An image content
block as exercised by the tests: it exposes a url (either a remote URL or a
data URI built by from_base64) and a detail level. -/
structure ImageBlock where
  url : String
  detail : ImageDetail
deriving DecidableEq

/-- Text content block (types.rs absent; shape fixed by lib.rs docs and the
tests): a single text field. -/
structure TextBlock where
  text : String
deriving DecidableEq

/-- Tool-use content block (types.rs absent; shape fixed by lib.rs docs):
tool name, unique id, and JSON input parameters. -/
structure ToolUseBlock where
  name : String
  id : String
  input : Json

/-- Tool-result content block (types.rs absent; shape fixed by lib.rs
docs): tool use id, content, and an error flag. -/
structure ToolResultBlock where
  toolUseId : String
  content : String
  isErr : Bool
deriving DecidableEq

/-- Modelled from the spec: types.rs is absent from src.  The ContentBlock
enum.  The spec and the lib.rs doc comment name three variants (Text,
ToolUse, ToolResult), but the integration tests in src/tests construct
ContentBlock::Image values (edge_cases_test.rs, image_serialization_test.rs,
debug_logging_test.rs), so the type necessarily has a fourth Image variant;
the embedding follows the tests. -/
inductive ContentBlock where
  | text (b : TextBlock)
  | toolUse (b : ToolUseBlock)
  | toolResult (b : ToolResultBlock)
  | image (b : ImageBlock)

/-- The variant name of a ContentBlock, mirroring the Rust constructor
names. -/
def ContentBlock.kind : ContentBlock → String
  | .text _ => "Text"
  | .toolUse _ => "ToolUse"
  | .toolResult _ => "ToolResult"
  | .image _ => "Image"

/-- The complete list of ContentBlock variant names in the embedding. -/
def contentBlockKinds : List String :=
  ["Text", "ToolUse", "ToolResult", "Image"]

/-- Every ContentBlock has a kind drawn from the variant list. -/
theorem ContentBlock.kind_mem (b : ContentBlock) : b.kind ∈ contentBlockKinds := by
  cases b <;> simp [ContentBlock.kind, contentBlockKinds]

/-- Character-level prefix test on strings, used to model the URL scheme
and MIME-type checks of the image constructors. -/
def strStarts (pre s : String) : Bool :=
  pre.data.isPrefixOf s.data

/-- A character of the base64 alphabet, including padding. -/
def isBase64Char (c : Char) : Bool :=
  c.isAlphanum || c = '+' || c = '/' || c = '='

/-- Valid base64 payload as the tests demand it: alphabet characters only
and length divisible by four (tests/edge_cases_test.rs,
test_various_mime_types and test_large_base64_data). -/
def isValidBase64 (s : String) : Bool :=
  (s.data.length % 4 == 0) && s.data.all isBase64Char

/-- An image MIME type: the tests pass image/jpeg, image/png, image/gif,
image/webp, image/avif. -/
def isImageMime (m : String) : Bool :=
  strStarts "image/" m

/-- A URL accepted by ImageBlock::from_url: http, https, or data URIs
(tests/edge_cases_test.rs, test_data_uri_with_different_encodings). -/
def isAcceptedUrl (u : String) : Bool :=
  strStarts "http://" u || strStarts "https://" u || strStarts "data:" u

/-- Modelled from the spec: types.rs is absent from src.  from_base64
validates the payload and MIME type and stores the data URI
data:MIME;base64,DATA (tests/image_serialization_test.rs,
test_base64_image_data_uri_format). -/
def ImageBlock.fromBase64 (data mime : String) : Except Error ImageBlock :=
  if isValidBase64 data && isImageMime mime then
    .ok { url := "data:" ++ mime ++ ";base64," ++ data, detail := ImageDetail.auto }
  else
    .error (Error.invalidInput "invalid base64 image data")

/-- Modelled from the spec: types.rs is absent from src.  from_url accepts
http, https and data URIs and stores the URL unchanged
(tests/edge_cases_test.rs). -/
def ImageBlock.fromUrl (u : String) : Except Error ImageBlock :=
  if isAcceptedUrl u then
    .ok { url := u, detail := ImageDetail.auto }
  else
    .error (Error.invalidInput "unsupported image url")

/-- with_detail replaces the detail level, keeping the URL. -/
def ImageBlock.withDetail (b : ImageBlock) (d : ImageDetail) : ImageBlock :=
  { b with detail := d }

/-- Modelled from the spec: utils.rs (delta aggregation) is absent from
src.  A partial update unit extracted from one frame, spec section 3: a
text delta, or a tool-call delta carrying the stream-assigned index plus
optional name, id and argument fragment. -/
inductive Delta where
  | text (s : String)
  | toolCall (index : Nat) (name : Option String) (id : Option String) (argFrag : Option String)

/-- Modelled from the spec: utils.rs is absent from src.  An in-flight
tool call, keyed externally by its index: accumulates optional name and id
(first non-empty value wins) and the concatenation of argument
fragments. -/
structure ToolCallInFlight where
  name : Option String
  id : Option String
  args : String

/-- First non-empty value wins: an already-set field ignores later
values (spec section 4.2). -/
def keepFirst : Option String → Option String → Option String
  | some v, _ => some v
  | none, newVal => newVal

/-- Apply a tool-call delta to an existing in-flight entry. -/
def patchTool (tc : ToolCallInFlight) (nm id frag : Option String) : ToolCallInFlight :=
  { name := keepFirst tc.name nm
    id := keepFirst tc.id id
    args := tc.args ++ frag.getD "" }

/-- A freshly created in-flight entry for a first fragment. -/
def freshTool (nm id frag : Option String) : ToolCallInFlight :=
  { name := nm, id := id, args := frag.getD "" }

/-- Locate or create the in-flight tool call at the given index, keeping
the association list sorted by ascending index so that finalization emits
tool-use blocks in ascending index order (spec section 4.2). -/
def upsertTool : List (Nat × ToolCallInFlight) → Nat → Option String → Option String →
    Option String → List (Nat × ToolCallInFlight)
  | [], i, nm, id, frag => [(i, freshTool nm id frag)]
  | (j, tc) :: rest, i, nm, id, frag =>
    if i = j then (j, patchTool tc nm id frag) :: rest
    else if i < j then (i, freshTool nm id frag) :: (j, tc) :: rest
    else (j, tc) :: upsertTool rest i nm id frag

/-- Modelled from the spec: utils.rs is absent from src.  The accumulation
state of the Delta Aggregator for one streaming response: the pending text
block and the in-flight tool calls. -/
structure AggState where
  text : String
  tools : List (Nat × ToolCallInFlight)

/-- The empty accumulation state at the start of a response. -/
def initAgg : AggState := { text := "", tools := [] }

/-- Consume one delta, spec section 4.2: text deltas append to the pending
text block (never starting a second block); tool-call deltas locate or
create the entry at their index, set name and id first-value-wins, and
append the argument fragment. -/
def applyDelta (st : AggState) : Delta → AggState
  | .text s => { st with text := st.text ++ s }
  | .toolCall i nm id frag => { st with tools := upsertTool st.tools i nm id frag }

/-- Consume a sequence of deltas in arrival order. -/
def applyDeltas (st : AggState) (ds : List Delta) : AggState :=
  ds.foldl applyDelta st

/-- The error message of a failed tool-argument parse, naming the
offending tool call by id and index (spec section 4.2). -/
def toolErrMsg (i : Nat) (tc : ToolCallInFlight) : String :=
  "invalid JSON in arguments of tool call " ++ tc.id.getD "" ++ " at index " ++ toString i

/-- Finalize the in-flight tool calls in list order (ascending index by
construction), parsing each accumulated argument string with the supplied
JSON parser; the first parse failure aborts with a Tool error naming that
call, and no block list is produced. -/
def finalizeTools (parse : String → Option Json) :
    List (Nat × ToolCallInFlight) → Except Error (List ContentBlock)
  | [] => .ok []
  | (i, tc) :: rest =>
    match parse tc.args with
    | none => .error (Error.tool (toolErrMsg i tc))
    | some input =>
      match finalizeTools parse rest with
      | .error e => .error e
      | .ok blocks =>
        .ok (ContentBlock.toolUse { name := tc.name.getD "", id := tc.id.getD "", input := input }
              :: blocks)

/-- Modelled from the spec: utils.rs is absent from src.  Finalization,
spec section 4.2: emit the pending text block if any non-empty
accumulation occurred, then one tool-use block per in-flight index in
ascending order; an argument parse failure is a Tool error, never a silent
empty-input substitution. -/
def finalizeAgg (parse : String → Option Json) (st : AggState) : Except Error (List ContentBlock) :=
  match finalizeTools parse st.tools with
  | .error e => .error e
  | .ok toolBlocks =>
    .ok ((if st.text = "" then [] else [ContentBlock.text { text := st.text }]) ++ toolBlocks)

/-- Right-fold concatenation of a list of text deltas in arrival order. -/
def concatTexts : List String → String
  | [] => ""
  | s :: rest => s ++ concatTexts rest

/-- A parser that rejects every argument string; used as a concrete
instance in witnesses. -/
def parseNone : String → Option Json := fun _ => none

/-- Modelled from the spec: the cancellation path (client.rs) is absent
from src.  The error the model surfaces when the Cancellation Token is
observed set.  The public Error enum in src/src/error.rs has no Interrupted
variant, so the model must use one of its nine existing variants; it uses
the catch-all Other. -/
def interruptError : Error := Error.other "operation interrupted by caller"

/-- Modelled from the spec: the cancellation path is absent from src.  One
streaming response driven under a cancellation token that becomes set at
step setAt; the token is re-checked before consuming each delta and once
more before finalization (spec section 4.5), and a set token raises the
interruption error instead of proceeding. -/
def runCancelGo (setAt : Nat) (parse : String → Option Json) (step : Nat) (st : AggState) :
    List Delta → Except Error (List ContentBlock)
  | [] =>
    if setAt ≤ step then .error interruptError else finalizeAgg parse st
  | d :: rest =>
    if setAt ≤ step then .error interruptError
    else runCancelGo setAt parse (step + 1) (applyDelta st d) rest

/-- Modelled from the spec: the cancellation path is absent from src.  Run
a whole response under an optional cancellation time: none means the token
is never set. -/
def runCancellable (setAt : Option Nat) (parse : String → Option Json) (deltas : List Delta) :
    Except Error (List ContentBlock) :=
  match setAt with
  | none => finalizeAgg parse (applyDeltas initAgg deltas)
  | some k => runCancelGo k parse 0 initAgg deltas

/-- Modelled from the spec: hooks.rs is absent from src.  A hook decision,
spec section 3: Continue unmodified, Block with a reason, or Modify with a
replaced event. -/
inductive HookDecision (Ev : Type) where
  | cont
  | block (reason : String)
  | modify (newEv : Ev)

/-- The outcome of running a hook chain: proceed with the (possibly
modified) event, or blocked with the first blocking reason. -/
inductive ChainResult (Ev : Type) where
  | proceed (e : Ev)
  | blocked (reason : String)

/-- Modelled from the spec: hooks.rs is absent from src.  Sequential fold
over the registered hooks in registration order (spec section 4.4),
instrumented with the number of hooks actually invoked: Continue passes
the event on unchanged, Block stops the chain immediately surfacing the
reason, Modify replaces the event before the next hook runs. -/
def runChainCount {Ev : Type} : List (Ev → HookDecision Ev) → Ev → ChainResult Ev × Nat
  | [], e => (.proceed e, 0)
  | h :: rest, e =>
    match h e with
    | .cont =>
      match runChainCount rest e with
      | (r, n) => (r, n + 1)
    | .block reason => (.blocked reason, 1)
    | .modify e2 =>
      match runChainCount rest e2 with
      | (r, n) => (r, n + 1)

/-- The hook-chain entry point: the decision outcome of running the chain
(spec section 6, invokeHookChain). -/
def invokeHookChain {Ev : Type} (hooks : List (Ev → HookDecision Ev)) (e : Ev) : ChainResult Ev :=
  (runChainCount hooks e).1

/-- Modelled from the spec: retry.rs is absent from src.  The retry policy,
spec section 4.3: maximum attempts, base delay, multiplier, delay cap.
Delays are in milliseconds as naturals. -/
structure RetryPolicy where
  maxAttempts : Nat
  baseDelayMs : Nat
  multiplier : Nat
  maxDelayMs : Nat

/-- The computed exponential backoff before jitter for attempt k: base
times multiplier to the k, clipped at the cap (spec section 4.3). -/
def rawDelay (p : RetryPolicy) (k : Nat) : Nat :=
  min (p.baseDelayMs * p.multiplier ^ k) p.maxDelayMs

/-- One step of a linear congruential generator, the deterministic PRNG
the model uses for jitter draws. -/
def lcg (s : Nat) : Nat :=
  (1103515245 * s + 12345) % 2147483648

/-- The k-th PRNG draw from a seed. -/
def prngAt (seed : Nat) : Nat → Nat
  | 0 => lcg seed
  | k + 1 => lcg (prngAt seed k)

/-- Modelled from the spec: retry.rs is absent from src.  Randomized
jitter in the half-open interval from zero to the current delay (spec
section 4.3), deterministic in the seed. -/
def jitterAt (seed : Nat) (p : RetryPolicy) (k : Nat) : Nat :=
  if rawDelay p k = 0 then 0 else prngAt seed k % rawDelay p k

/-- The delay actually slept before retry k: the exponential backoff plus
its jitter draw. -/
def delayAt (seed : Nat) (p : RetryPolicy) (k : Nat) : Nat :=
  rawDelay p k + jitterAt seed p k

/-- The classified outcome of one request attempt, spec section 4.3:
success, a retryable failure (connection failure, 5xx, rate limit), or a
non-retryable failure surfaced immediately. -/
inductive AttemptOutcome where
  | success
  | retryable
  | fatal

/-- Modelled from the spec: retry.rs is absent from src.  The retry loop
on a remaining budget: a success or non-retryable failure ends the loop
after the current attempt; a retryable failure consumes one unit of budget
and retries.  Returns the number of attempts performed. -/
def retryGo (attempt : Nat → AttemptOutcome) : Nat → Nat → Nat
  | 0, _ => 0
  | budget + 1, k =>
    match attempt k with
    | .success => 1
    | .fatal => 1
    | .retryable => 1 + retryGo attempt budget (k + 1)

/-- The number of attempts the Retry Controller performs for a policy and
an attempt-outcome sequence. -/
def attemptsUsed (p : RetryPolicy) (attempt : Nat → AttemptOutcome) : Nat :=
  retryGo attempt p.maxAttempts 0

/-- Modelled from the spec: types.rs is absent from src.  One part of an
OpenAI array-format message content: a text part or an image-url part
(tests/image_serialization_test.rs). -/
inductive OpenAIContentPart where
  | text (s : String)
  | imageUrl (url : String) (detail : ImageDetail)

/-- Modelled from the spec: types.rs is absent from src.  OpenAI message
content: the v0.5.0 bare-string format for text-only messages, or the
v0.6.0 array-of-parts format (tests/backward_compatibility_test.rs). -/
inductive OpenAIContent where
  | text (s : String)
  | parts (ps : List OpenAIContentPart)

/-- Serialization of one content part, matching the JSON shapes the tests
assert: a tagged object with type text, or type image_url with a nested
object carrying url and detail. -/
def partToJson : OpenAIContentPart → Json
  | .text s => .obj [("type", .str "text"), ("text", .str s)]
  | .imageUrl u d =>
    .obj [("type", .str "image_url"),
          ("image_url", .obj [("url", .str u), ("detail", .str d.str)])]

/-- Serialization of OpenAIContent: Text serializes as a bare JSON string
(backward-compatible v0.5.0 format), Parts as a JSON array of tagged
part objects (serde untagged enum behaviour pinned by the tests). -/
def contentToJson : OpenAIContent → Json
  | .text s => .str s
  | .parts ps => .arr (ps.map partToJson)

/-- Parse a detail level back from its wire string. -/
def ImageDetail.ofStr : String → Option ImageDetail
  | "low" => some .low
  | "high" => some .high
  | "auto" => some .auto
  | _ => none

/-- Deserialization of one content part from its tagged object form. -/
def partFromJson (j : Json) : Option OpenAIContentPart :=
  match j.getField "type" with
  | some (.str "text") =>
    match j.getField "text" with
    | some (.str s) => some (.text s)
    | _ => none
  | some (.str "image_url") =>
    match j.getField "image_url" with
    | some inner =>
      match inner.getField "url", inner.getField "detail" with
      | some (.str u), some (.str d) =>
        match ImageDetail.ofStr d with
        | some det => some (.imageUrl u det)
        | none => none
      | _, _ => none
    | none => none
  | _ => none

/-- Deserialization of OpenAIContent: a bare JSON string is the v0.5.0
text format (tests/backward_compatibility_test.rs,
test_v050_deserialize_text_message); an array deserializes part by
part. -/
def contentFromJson : Json → Option OpenAIContent
  | .str s => some (.text s)
  | .arr xs =>
    match xs.mapM partFromJson with
    | some ps => some (.parts ps)
    | none => none
  | _ => none

/-- True when a serialized part object carries a type tag of text or
image_url. -/
def partTagged (j : Json) : Bool :=
  match j.getField "type" with
  | some (.str t) => t = "text" || t = "image_url"
  | _ => false

/-- All elements of a JSON array satisfy the part-tag check; false on
non-arrays. -/
def arrAllTagged : Json → Bool
  | .arr xs => xs.all partTagged
  | _ => false

/-- The part a content block contributes to array-format serialization:
text blocks become text parts (empty text included), image blocks become
image-url parts; tool blocks are carried outside the content field and
contribute no part. -/
def blockToPart : ContentBlock → Option OpenAIContentPart
  | .text tb => some (.text tb.text)
  | .image ib => some (.imageUrl ib.url ib.detail)
  | _ => none

/-- The text a content block contributes to string-format serialization. -/
def textOf : ContentBlock → Option String
  | .text tb => some tb.text
  | _ => none

/-- Whether a block list contains an image, selecting the array format
(tests/backward_compatibility_test.rs, test_image_message_uses_array_format). -/
def hasImage (blocks : List ContentBlock) : Bool :=
  blocks.any fun b =>
    match b with
    | .image _ => true
    | _ => false

/-- A string that is empty or whitespace-only: every character is
whitespace. -/
def isBlankStr (s : String) : Bool :=
  s.data.all Char.isWhitespace

/-- A text block whose content is empty or whitespace-only; such blocks
trigger a warning but are still serialized (spec section 9). -/
def isBlankText : ContentBlock → Bool
  | .text tb => isBlankStr tb.text
  | _ => false

/-- The number of empty-or-whitespace text-block warnings emitted while
serializing a block list. -/
def warnCount (blocks : List ContentBlock) : Nat :=
  (blocks.filter isBlankText).length

/-- Modelled from the spec: types.rs is absent from src.  Building the
OpenAI content of a message: with an image present, the array format with
one part per text or image block in order (empty text blocks included,
with a warning, never dropped); otherwise the v0.5.0 string format joining
the text blocks with newlines. -/
def buildContent (blocks : List ContentBlock) : OpenAIContent :=
  if hasImage blocks then .parts (blocks.filterMap blockToPart)
  else .text (String.intercalate "\n" (blocks.filterMap textOf))

/-- Folding text deltas from any state appends their concatenation to the
pending text and leaves tool state untouched. -/
theorem applyDeltas_texts (texts : List String) (st : AggState) :
    applyDeltas st (texts.map Delta.text) =
      { text := st.text ++ concatTexts texts, tools := st.tools } := by
  induction texts generalizing st with
  | nil => simp [applyDeltas, concatTexts, String.append_empty]
  | cons t rest ih =>
    simp only [List.map_cons, applyDeltas, List.foldl_cons]
    have hstep : List.foldl applyDelta (applyDelta st (Delta.text t)) (rest.map Delta.text) =
        applyDeltas (applyDelta st (Delta.text t)) (rest.map Delta.text) := rfl
    rw [hstep, ih]
    simp [applyDelta, concatTexts, String.append_assoc]

/-- Claim C2 (amended): for every sequence of text deltas consumed in one
streaming response, finalization emits exactly one Text block whose
content is the concatenation of the deltas in arrival order whenever that
concatenation is non-empty, and no Text block at all when the accumulated
text is empty; a text delta never starts a second block. -/
theorem c2_theorem (parse : String → Option Json) (texts : List String) :
    (concatTexts texts ≠ "" →
      finalizeAgg parse (applyDeltas initAgg (texts.map Delta.text)) =
        Except.ok [ContentBlock.text { text := concatTexts texts }]) ∧
    (concatTexts texts = "" →
      finalizeAgg parse (applyDeltas initAgg (texts.map Delta.text)) = Except.ok []) := by
  rw [applyDeltas_texts]
  constructor
  · intro h
    simp [initAgg, finalizeAgg, finalizeTools, String.empty_append, h]
  · intro h
    simp [initAgg, finalizeAgg, finalizeTools, String.empty_append, h]

/-- Witness for C2: the deltas Hello and space-world finalize into the
single Text block Hello world. -/
theorem c2_witness :
    finalizeAgg parseNone (applyDeltas initAgg (["Hello", " world"].map Delta.text)) =
      Except.ok [ContentBlock.text { text := concatTexts ["Hello", " world"] }] :=
  (c2_theorem parseNone ["Hello", " world"]).1 (by decide)

/-- Counterexample for C2 as stated: consuming the empty sequence of text
deltas and finalizing emits zero Text blocks, not exactly one. -/
theorem c2_counterexample :
    finalizeAgg parseNone (applyDeltas initAgg (([] : List String).map Delta.text)) =
      Except.ok [] ∧
    finalizeAgg parseNone (applyDeltas initAgg (([] : List String).map Delta.text)) ≠
      Except.ok [ContentBlock.text { text := concatTexts [] }] := by
  constructor
  · rfl
  · simp [finalizeAgg, finalizeTools, applyDeltas, initAgg]

/-- Claim C1 (amended): the public error type of the streaming entry point
has exactly the nine variants of src/src/error.rs, including a dedicated
Timeout variant but no Interrupted variant; caller-requested cancellation
is therefore not distinguished by a dedicated error variant. -/
theorem c1_theorem :
    (∀ e : Error, Error.kind e ∈ errorKinds) ∧
    Error.kind Error.timeout = "Timeout" ∧
    "Interrupted" ∉ errorKinds :=
  ⟨Error.kind_mem_errorKinds, rfl, by decide⟩

/-- Counterexample for C1 as stated: no variant of the Error enum is named
Interrupted; the variant-name list of src/src/error.rs does not contain
it. -/
theorem c1_counterexample : "Interrupted" ∉ errorKinds := by decide

/-- Counterexample for C3 as stated: the integration tests construct an
Image content block, whose variant lies outside the claimed set of Text,
ToolUse and ToolResult. -/
theorem c3_counterexample :
    ContentBlock.kind
        (ContentBlock.image { url := "https://example.com/1.jpg", detail := ImageDetail.auto }) =
      "Image" ∧
    "Image" ∉ ["Text", "ToolUse", "ToolResult"] :=
  ⟨rfl, by decide⟩

/-- Claim C3 (amended): the content-block type is a tagged-variant type
whose variants are exactly Text, ToolUse, ToolResult and Image, each
realized, and every value falls in that list (so consumption by case
analysis is exhaustive without a catch-all). -/
theorem c3_theorem :
    (∀ b : ContentBlock, ContentBlock.kind b ∈ contentBlockKinds) ∧
    ContentBlock.kind (ContentBlock.text { text := "" }) = "Text" ∧
    ContentBlock.kind (ContentBlock.toolUse { name := "", id := "", input := Json.null }) =
      "ToolUse" ∧
    ContentBlock.kind
        (ContentBlock.toolResult { toolUseId := "", content := "", isErr := false }) =
      "ToolResult" ∧
    ContentBlock.kind (ContentBlock.image { url := "", detail := ImageDetail.auto }) = "Image" ∧
    contentBlockKinds = ["Text", "ToolUse", "ToolResult", "Image"] :=
  ⟨ContentBlock.kind_mem, rfl, rfl, rfl, rfl, rfl⟩

/-- The tool finalization pass fails with the Tool error naming the first
in-flight entry whose accumulated arguments do not parse. -/
theorem finalizeTools_first_fail (parse : String → Option Json) :
    ∀ (l : List (Nat × ToolCallInFlight)) (j : Nat) (tc : ToolCallInFlight),
      l.find? (fun q => (parse q.2.args).isNone) = some (j, tc) →
      finalizeTools parse l = Except.error (Error.tool (toolErrMsg j tc)) := by
  intro l
  induction l with
  | nil => intro j tc h; simp [List.find?] at h
  | cons hd rest ih =>
    intro j tc h
    rcases hd with ⟨j0, tc0⟩
    cases hq : parse tc0.args with
    | none =>
      rw [List.find?_cons_of_pos _ (by simp [hq])] at h
      obtain ⟨h1, h2⟩ := Prod.mk.injEq .. ▸ Option.some.injEq .. ▸ h
      subst h1
      subst h2
      simp [finalizeTools, hq]
    | some v =>
      rw [List.find?_cons_of_neg _ (by simp [hq])] at h
      simp [finalizeTools, hq, ih j tc h]

/-- Claim C4: when some in-flight tool call has accumulated argument
fragments that do not parse as JSON, finalization fails with a Tool error
naming the first such call (by id and index); it produces no block list at
all, in particular it never substitutes an empty JSON object as the tool
input. -/
theorem c4_theorem (parse : String → Option Json) (st : AggState) (j : Nat)
    (tc : ToolCallInFlight)
    (h : st.tools.find? (fun q => (parse q.2.args).isNone) = some (j, tc)) :
    finalizeAgg parse st = Except.error (Error.tool (toolErrMsg j tc)) := by
  have hft := finalizeTools_first_fail parse st.tools j tc h
  simp [finalizeAgg, hft]

/-- A concrete in-flight tool call whose arguments are not valid JSON. -/
def tcBad : ToolCallInFlight := { name := some "calc", id := some "a1", args := "not json" }

/-- A concrete aggregator state holding only the failing tool call. -/
def aggStBad : AggState := { text := "", tools := [(0, tcBad)] }

/-- Witness for C4: finalizing the state holding the unparsable tool call
at index 0 fails with the Tool error naming id a1 at index 0. -/
theorem c4_witness :
    finalizeAgg parseNone aggStBad = Except.error (Error.tool (toolErrMsg 0 tcBad)) :=
  c4_theorem parseNone aggStBad 0 tcBad rfl

/-- The retry loop never performs more attempts than its remaining
budget. -/
theorem retryGo_le (attempt : Nat → AttemptOutcome) (budget : Nat) :
    ∀ k, retryGo attempt budget k ≤ budget := by
  induction budget with
  | zero => intro k; simp [retryGo]
  | succ b ih =>
    intro k
    cases hA : attempt k with
    | success => simp only [retryGo, hA]; omega
    | retryable =>
      have h := ih (k + 1)
      simp only [retryGo, hA]
      omega
    | fatal => simp only [retryGo, hA]; omega

/-- The pre-jitter backoff is non-decreasing in the attempt index when the
multiplier is at least one. -/
theorem rawDelay_mono (p : RetryPolicy) (hm : 1 ≤ p.multiplier) (k : Nat) :
    rawDelay p k ≤ rawDelay p (k + 1) := by
  unfold rawDelay
  apply min_le_min _ (le_refl p.maxDelayMs)
  calc p.baseDelayMs * p.multiplier ^ k
      = p.baseDelayMs * p.multiplier ^ k * 1 := by ring
    _ ≤ p.baseDelayMs * p.multiplier ^ k * p.multiplier := Nat.mul_le_mul_left _ hm
    _ = p.baseDelayMs * p.multiplier ^ (k + 1) := by ring

/-- Once the exponential term reaches the cap, the backoff sits exactly at
the cap. -/
theorem rawDelay_at_cap (p : RetryPolicy) (k : Nat)
    (h : p.maxDelayMs ≤ p.baseDelayMs * p.multiplier ^ k) :
    rawDelay p k = p.maxDelayMs :=
  min_eq_right h

/-- The jittered delay lies between the backoff value and twice the
backoff value: backoff plus a jitter draw in the half-open jitter
interval. -/
theorem delayAt_bounds (seed : Nat) (p : RetryPolicy) (k : Nat) :
    rawDelay p k ≤ delayAt seed p k ∧ delayAt seed p k ≤ 2 * rawDelay p k := by
  by_cases h : rawDelay p k = 0
  · simp [delayAt, jitterAt, h]
  · have hlt : prngAt seed k % rawDelay p k < rawDelay p k :=
      Nat.mod_lt _ (Nat.pos_of_ne_zero h)
    simp only [delayAt, jitterAt, if_neg h]
    omega

/-- Claim C5: the Retry Controller performs at most the configured maximum
number of attempts; the computed backoff delays (deterministic functions
of the fixed seed) are monotonically non-decreasing until they reach the
configured cap, sit exactly at the cap afterwards, and the jittered delay
stays within the cap-plus-jitter band, jitter being drawn from the
half-open interval from zero to the current delay. -/
theorem c5_theorem (p : RetryPolicy) (seed : Nat) (attempt : Nat → AttemptOutcome)
    (hm : 1 ≤ p.multiplier) :
    attemptsUsed p attempt ≤ p.maxAttempts ∧
    (∀ k, rawDelay p k ≤ rawDelay p (k + 1)) ∧
    (∀ k, p.maxDelayMs ≤ p.baseDelayMs * p.multiplier ^ k → rawDelay p k = p.maxDelayMs) ∧
    (∀ k, rawDelay p k ≤ delayAt seed p k ∧ delayAt seed p k ≤ 2 * rawDelay p k) :=
  ⟨retryGo_le attempt p.maxAttempts 0,
   fun k => rawDelay_mono p hm k,
   fun k h => rawDelay_at_cap p k h,
   fun k => delayAt_bounds seed p k⟩

/-- A concrete retry policy: three attempts, 100 ms base, multiplier two,
1000 ms cap. -/
def retryPolicyExample : RetryPolicy :=
  { maxAttempts := 3, baseDelayMs := 100, multiplier := 2, maxDelayMs := 1000 }

/-- An attempt sequence that always fails retryably. -/
def alwaysRetry : Nat → AttemptOutcome := fun _ => AttemptOutcome.retryable

/-- Witness for C5 at the concrete policy, seed 42 and an
always-retryable attempt sequence. -/
theorem c5_witness :
    attemptsUsed retryPolicyExample alwaysRetry ≤ retryPolicyExample.maxAttempts ∧
    rawDelay retryPolicyExample 0 ≤ rawDelay retryPolicyExample 1 ∧
    rawDelay retryPolicyExample 5 = retryPolicyExample.maxDelayMs ∧
    rawDelay retryPolicyExample 2 ≤ delayAt 42 retryPolicyExample 2 ∧
    delayAt 42 retryPolicyExample 2 ≤ 2 * rawDelay retryPolicyExample 2 := by
  have h := c5_theorem retryPolicyExample 42 alwaysRetry (by decide)
  exact ⟨h.1, h.2.1 0, h.2.2.1 5 (by decide), (h.2.2.2 2).1, (h.2.2.2 2).2⟩

/-- Claim C6: the hook chain invokes hooks strictly in registration order
with short-circuiting: a head hook returning Block ends the chain at once
with the blocking reason and an invocation count of one, however many
hooks follow; a head hook returning Modify hands the modified event, not
the original, to the remaining chain; a head hook returning Continue hands
the unmodified event to the remaining chain. -/
theorem c6_theorem {Ev : Type} (h : Ev → HookDecision Ev)
    (rest : List (Ev → HookDecision Ev)) (e : Ev) :
    (∀ r, h e = HookDecision.block r →
      runChainCount (h :: rest) e = (ChainResult.blocked r, 1)) ∧
    (∀ e2, h e = HookDecision.modify e2 →
      runChainCount (h :: rest) e =
        ((runChainCount rest e2).1, (runChainCount rest e2).2 + 1)) ∧
    (h e = HookDecision.cont →
      runChainCount (h :: rest) e =
        ((runChainCount rest e).1, (runChainCount rest e).2 + 1)) := by
  refine ⟨?_, ?_, ?_⟩
  · intro r hb
    simp [runChainCount, hb]
  · intro e2 hmod
    simp [runChainCount, hmod]
  · intro hc
    simp [runChainCount, hc]

/-- A hook that blocks every event with the reason no. -/
def hookBlockNo : String → HookDecision String := fun _ => HookDecision.block "no"

/-- A hook that modifies every event by appending an exclamation mark. -/
def hookAppendBang : String → HookDecision String := fun s => HookDecision.modify (s ++ "!")

/-- Witness for C6: a two-hook chain whose first hook blocks never runs
the second hook and surfaces the blocking reason. -/
theorem c6_witness :
    runChainCount [hookBlockNo, hookAppendBang] "x" = (ChainResult.blocked "no", 1) :=
  (c6_theorem hookBlockNo [hookAppendBang] "x").1 "no" rfl

/-- With the token set no later than the number of consumed deltas, the
cancellation check fires before finalization and the run yields the
interruption error. -/
theorem runCancelGo_interrupts (parse : String → Option Json) :
    ∀ (deltas : List Delta) (setAt step : Nat) (st : AggState),
      setAt ≤ step + deltas.length →
      runCancelGo setAt parse step st deltas = Except.error interruptError := by
  intro deltas
  induction deltas with
  | nil =>
    intro setAt step st h
    simp only [List.length_nil, Nat.add_zero] at h
    simp [runCancelGo, h]
  | cons d rest ih =>
    intro setAt step st h
    by_cases hs : setAt ≤ step
    · simp [runCancelGo, hs]
    · have hrec : setAt ≤ (step + 1) + rest.length := by
        simp only [List.length_cons] at h
        omega
      simp [runCancelGo, hs, ih setAt (step + 1) (applyDelta st d) hrec]

/-- Claim C7 (amended): if the Cancellation Token is set at or before the
finalization point of an in-progress response, the operation terminates
with an error and emits zero finalized content blocks regardless of the
accumulated text or tool data; the error is surfaced through an existing
Error variant, since the public error type has no dedicated Interrupted
variant. -/
theorem c7_theorem (parse : String → Option Json) (deltas : List Delta) (k : Nat)
    (h : k ≤ deltas.length) :
    runCancellable (some k) parse deltas = Except.error interruptError := by
  simp only [runCancellable]
  exact runCancelGo_interrupts parse deltas k 0 initAgg (by omega)

/-- Witness for C7: a response with two text deltas cancelled after the
first delta terminates with the interruption error and no blocks. -/
theorem c7_witness :
    runCancellable (some 1) parseNone [Delta.text "Hello", Delta.text " world"] =
      Except.error interruptError :=
  c7_theorem parseNone [Delta.text "Hello", Delta.text " world"] 1 (by decide)

/-- Counterexample for C7 as stated: a response cancelled immediately does
terminate with an error carrying no blocks, but the error is not a
dedicated Interrupted outcome; its variant is the catch-all Other, and the
Error enum has no Interrupted variant at all. -/
theorem c7_counterexample :
    runCancellable (some 0) parseNone [Delta.text "Hello"] = Except.error interruptError ∧
    Error.kind interruptError ≠ "Interrupted" := by
  exact ⟨rfl, by decide⟩

/-- Claim C8: a message containing an empty or whitespace-only text block
still serializes that block — as a text part in the array format and as an
entry in the string-format join — while emitting at least one warning; no
content block is silently dropped. -/
theorem c8_theorem (pre post : List ContentBlock) (s : String) (hblank : isBlankStr s = true) :
    (pre ++ ContentBlock.text { text := s } :: post).filterMap blockToPart =
        pre.filterMap blockToPart ++ OpenAIContentPart.text s :: post.filterMap blockToPart ∧
    (pre ++ ContentBlock.text { text := s } :: post).filterMap textOf =
        pre.filterMap textOf ++ s :: post.filterMap textOf ∧
    (hasImage (pre ++ ContentBlock.text { text := s } :: post) = true →
      buildContent (pre ++ ContentBlock.text { text := s } :: post) =
        OpenAIContent.parts
          (pre.filterMap blockToPart ++
            OpenAIContentPart.text s :: post.filterMap blockToPart)) ∧
    1 ≤ warnCount (pre ++ ContentBlock.text { text := s } :: post) := by
  refine ⟨?_, ?_, ?_, ?_⟩
  · simp [List.filterMap_append, List.filterMap_cons, blockToPart]
  · simp [List.filterMap_append, List.filterMap_cons, textOf]
  · intro himg
    simp [buildContent, himg, List.filterMap_append, List.filterMap_cons, blockToPart]
  · simp [warnCount, List.filter_append, List.filter_cons, isBlankText, hblank]
    omega

/-- A concrete image block used by the witnesses. -/
def imgExample : ImageBlock := { url := "https://example.com/img.jpg", detail := ImageDetail.auto }

/-- Witness for C8: a message of an empty text block followed by an image
serializes to the array format with the empty text part present, with one
warning. -/
theorem c8_witness :
    buildContent [ContentBlock.text { text := "" }, ContentBlock.image imgExample] =
      OpenAIContent.parts
        [OpenAIContentPart.text "",
         OpenAIContentPart.imageUrl "https://example.com/img.jpg" ImageDetail.auto] ∧
    1 ≤ warnCount [ContentBlock.text { text := "" }, ContentBlock.image imgExample] := by
  have h := c8_theorem [] [ContentBlock.image imgExample] "" (by decide)
  exact ⟨h.2.2.1 rfl, h.2.2.2⟩

/-- Serialized parts always carry a type tag of text or image_url. -/
theorem partTagged_partToJson (p : OpenAIContentPart) : partTagged (partToJson p) = true := by
  cases p <;> rfl

/-- Claim C9: serializing OpenAIContent Text yields the bare JSON string
(and deserializing it back is the identity round trip), and serializing
OpenAIContent Parts yields a JSON array whose every element is a tagged
object with type text or image_url. -/
theorem c9_theorem (s : String) (ps : List OpenAIContentPart) :
    contentToJson (OpenAIContent.text s) = Json.str s ∧
    contentFromJson (contentToJson (OpenAIContent.text s)) = some (OpenAIContent.text s) ∧
    Json.isArr (contentToJson (OpenAIContent.parts ps)) = true ∧
    arrAllTagged (contentToJson (OpenAIContent.parts ps)) = true := by
  refine ⟨rfl, rfl, rfl, ?_⟩
  simp only [contentToJson, arrAllTagged, List.all_eq_true]
  intro j hj
  obtain ⟨p, hp, rfl⟩ := List.mem_map.mp hj
  exact partTagged_partToJson p

/-- Claim C10: from_base64 on a valid base64 payload and an image MIME
type succeeds with the url equal to the data URI built from the MIME type
and the payload; from_url on an http, https or data URI succeeds and
returns the URL unchanged. -/
theorem c10_theorem (d m u : String) :
    (isValidBase64 d = true → isImageMime m = true →
      Except.map ImageBlock.url (ImageBlock.fromBase64 d m) =
        Except.ok ("data:" ++ m ++ ";base64," ++ d)) ∧
    (isAcceptedUrl u = true →
      Except.map ImageBlock.url (ImageBlock.fromUrl u) = Except.ok u) := by
  constructor
  · intro h1 h2
    simp [ImageBlock.fromBase64, h1, h2, Except.map]
  · intro h
    simp [ImageBlock.fromUrl, h, Except.map]

/-- Witness for C10 on the test inputs: the base64 payload AAAA with MIME
type image/png, and an https URL. -/
theorem c10_witness :
    Except.map ImageBlock.url (ImageBlock.fromBase64 "AAAA" "image/png") =
      Except.ok ("data:" ++ "image/png" ++ ";base64," ++ "AAAA") ∧
    Except.map ImageBlock.url (ImageBlock.fromUrl "https://example.com/img.jpg") =
      Except.ok "https://example.com/img.jpg" := by
  have h := c10_theorem "AAAA" "image/png" "https://example.com/img.jpg"
  exact ⟨h.1 (by decide) (by decide), h.2 (by decide)⟩
